import Mathlib

/-!
Shallow embedding of the connection-context lifecycle of the
chrome-devtools-mcp repository, together with theorems checking the
natural-language specification against the code.

Embedded source:
  * `context.ts` (`setContext`, `getContext`, `setContextInstance`) — the
    module-level registry and the timeout-raced connection establishment;
  * the `switch_browser` tool handler and its helper
    `convertHttpToBrowserUrl`;
  * the `inspect_element` and `get_dom_tree` tool handlers from
    `src/tools/layout.ts`.

External collaborators (the puppeteer driver behind
`ensureBrowserConnected`, `McpContext.from`, the platform `fetch` and
`new URL`) are modelled as oracle parameters supplied by an environment
record, so every theorem is quantified over their possible behaviours.
asynchrony is modelled by settle times: a promise either settles at some
time `t : Nat` or never settles.
-/

/-- A live connection handle as the driver returns it.  The only field the
embedded code inspects is the `connected` liveness indicator. -/
structure Browser where
  connected : Bool
deriving DecidableEq

/-- Opaque model of the `McpContext` object built by `McpContext.from`.
Its internals are irrelevant to the lifecycle code; an identifier keeps
distinct contexts distinguishable. -/
structure McpContext where
  ctxId : Nat
deriving DecidableEq

/-- The `SetContextOptions` record of `context.ts`.  Fields that the
TypeScript destructuring defaults when `undefined` are `Option`s here and
the defaults are applied inside `setContext`, as in the source. -/
structure SetContextOptions where
  browserURL : Option String := none
  wsEndpoint : Option String := none
  devtools : Option Bool := none
  experimentalIncludeAllPages : Option Bool := none
  timeout : Option Int := none
deriving DecidableEq

/-- Eventual settlement of the `ensureBrowserConnected` promise: it either
resolves with a value (possibly `null`/`undefined`, hence `Option Browser`)
or rejects with an error message. -/
inductive ConnectResult where
  | resolved (b : Option Browser)
  | rejected (msg : String)
deriving DecidableEq

/-- Environment oracle for `setContext`: when and how the driver's connect
promise settles, and what `McpContext.from` does for a given handle and
flag pair. -/
structure ConnEnv where
  connectSettle : Option Nat
  connectResult : ConnectResult
  build : Browser → Bool → Bool → Except String McpContext

/-- Outcome of running an async JavaScript function: it returns a value,
throws, or never settles. -/
inductive JsOutcome (α : Type) where
  | ok (a : α)
  | thrown (msg : String)
  | pending
deriving DecidableEq

/-- Observable actions `setContext` performed: whether the connect
operation was started, the arguments handed to `ensureBrowserConnected`,
whether a timeout timer was armed and cleared, and the handle/flags (if
any) handed to `McpContext.from`. -/
structure SetContextTrace where
  connectCalled : Bool
  connectArgs : Option String × Option String × Bool
  timerArmed : Bool
  timerCleared : Bool
  buildCalledWith : Option (Browser × Bool × Bool)
deriving DecidableEq

/-- JavaScript truthiness of the optional numeric `timeout` field, as
tested by `if (timeout)`. -/
def jsTruthyInt : Option Int → Bool
  | none => false
  | some t => t != 0

/-- Time at which a `setTimeout(f, t)` callback fires: Node clamps delays
below 1ms to 1ms. -/
def timerFireTime (t : Int) : Nat :=
  if t < 1 then 1 else t.toNat

/-- The timeout timer wins the `Promise.race` iff the connect promise has
not settled strictly before the timer fires. -/
def timerWinsRace (t : Int) (settle : Option Nat) : Bool :=
  match settle with
  | none => true
  | some s => timerFireTime t ≤ s

/-- The rejection message built in the `timeoutPromise` of `setContext`. -/
def timeoutMessage (t : Int) : String :=
  "Failed to connect to browser within " ++ toString t ++
    "ms. Please check that the browser is running and accessible at the provided URL."

/-- The error message thrown by `setContext` when the resolved browser
handle is `undefined`. -/
def browserUndefinedMessage : String :=
  "Failed to connect to browser: browser object is undefined"

/-- Result of `await connectPromise` with no deadline: `none` models a
promise that never settles (the `await` suspends forever). -/
def directAwait (env : ConnEnv) : Option (Except String (Option Browser)) :=
  match env.connectSettle with
  | none => none
  | some _ =>
    some (match env.connectResult with
          | ConnectResult.resolved b => Except.ok b
          | ConnectResult.rejected m => Except.error m)

/-- The `browser = await ...` section of `setContext`: value obtained (or
`none` when the await never settles), whether a timer was armed, and
whether `clearTimeout` ran.  The timer branch is taken when `if (timeout)`
is truthy; its `try`/`finally` always executes `clearTimeout`. -/
def racedAwait (opts : SetContextOptions) (env : ConnEnv) :
    Option (Except String (Option Browser)) × Bool × Bool :=
  match opts.timeout with
  | some t =>
    if t != 0 then
      if timerWinsRace t env.connectSettle then
        (some (Except.error (timeoutMessage t)), true, true)
      else
        (directAwait env, true, true)
    else
      (directAwait env, false, false)
  | none => (directAwait env, false, false)

/-- Embedding of `setContext` from `context.ts`.  The module-level
`context` variable (the registry) is threaded as explicit state: the
function receives the registry's value before the call and returns its
value afterwards, along with the outcome and the action trace.  The
registry is assigned only on the single success path, exactly as in the
source, where `context = await McpContext.from(...)` is the sole write. -/
def setContext (opts : SetContextOptions) (env : ConnEnv) (reg : Option McpContext) :
    JsOutcome McpContext × SetContextTrace × Option McpContext :=
  let devtools := opts.devtools.getD false
  let includeAll := opts.experimentalIncludeAllPages.getD false
  let args := (opts.browserURL, opts.wsEndpoint, devtools)
  match racedAwait opts env with
  | (none, armed, cleared) =>
    (JsOutcome.pending, ⟨true, args, armed, cleared, none⟩, reg)
  | (some (Except.error m), armed, cleared) =>
    (JsOutcome.thrown m, ⟨true, args, armed, cleared, none⟩, reg)
  | (some (Except.ok none), armed, cleared) =>
    (JsOutcome.thrown browserUndefinedMessage, ⟨true, args, armed, cleared, none⟩, reg)
  | (some (Except.ok (some b)), armed, cleared) =>
    match env.build b devtools includeAll with
    | Except.error m =>
      (JsOutcome.thrown m, ⟨true, args, armed, cleared, some (b, devtools, includeAll)⟩, reg)
    | Except.ok c =>
      (JsOutcome.ok c, ⟨true, args, armed, cleared, some (b, devtools, includeAll)⟩, some c)

/-- Embedding of `getContext` from `context.ts`: reads the registry. -/
def getContext (reg : Option McpContext) : Option McpContext := reg

/-- Embedding of `setContextInstance` from `context.ts`: overwrites the
registry. -/
def setContextInstance (newContext : Option McpContext) (_reg : Option McpContext) :
    Option McpContext := newContext

/-- Outcome of `fetch(url + "/json/version")` followed by
`response.json()` in `convertHttpToBrowserUrl`: the fetch may resolve with
an ok response whose JSON has (or lacks) the `webSocketDebuggerUrl` field,
resolve with a non-ok response, reject, or the body parse may reject. -/
inductive FetchOutcome where
  | ok (ws : Option String)
  | jsonError (msg : String)
  | httpError (statusText : String)
  | netError (msg : String)
deriving DecidableEq

/-- The `message` string that reaches the catch-block wrapper of
`convertHttpToBrowserUrl` when the try-block fails, or `none` on
success: a non-ok response first raises
`Failed to fetch browser info: <statusText>`. -/
def fetchFailureCause : FetchOutcome → Option String
  | FetchOutcome.ok _ => none
  | FetchOutcome.jsonError m => some m
  | FetchOutcome.httpError st => some ("Failed to fetch browser info: " ++ st)
  | FetchOutcome.netError m => some m

/-- The wrapped error message thrown by `convertHttpToBrowserUrl`. -/
def resolutionMessage (url cause : String) : String :=
  "Could not connect to browser at " ++ url ++ ": " ++ cause ++
    ". Make sure the browser is running and the URL is correct."

/-- Embedding of `convertHttpToBrowserUrl`: on success it returns
`data.webSocketDebuggerUrl` (possibly absent), on any try-block failure it
throws the wrapped, URL-carrying message. -/
def convertHttpToBrowserUrl (url : String) (f : FetchOutcome) :
    Except String (Option String) :=
  match f with
  | FetchOutcome.ok ws => Except.ok ws
  | FetchOutcome.jsonError m => Except.error (resolutionMessage url m)
  | FetchOutcome.httpError st =>
    Except.error (resolutionMessage url ("Failed to fetch browser info: " ++ st))
  | FetchOutcome.netError m => Except.error (resolutionMessage url m)

/-- Externally observable events of one `switch_browser` invocation, in
program order: the unconditional `disconnectBrowser()` call, each response
line appended, each network fetch issued, and the `setContext` call with
the options it receives. -/
inductive SwitchEv where
  | disconnect
  | respLine (s : String)
  | fetch (u : String)
  | connectAttempt (opts : SetContextOptions)
deriving DecidableEq

/-- JavaScript template-literal rendering of a possibly-undefined string. -/
def optStr : Option String → String
  | some s => s
  | none => "undefined"

/-- The error message thrown by the `switch_browser` handler for a locator
whose scheme is not http, https, ws or wss. -/
def unsupportedMessage (proto : String) : String :=
  "Unsupported protocol: " ++ proto ++ ". Expected http://, https://, ws://, or wss://"

/-- Environment oracle for the `switch_browser` handler: the platform URL
parser (`new URL(u).protocol`, `none` when the constructor throws), the
outcome of the metadata fetch, the connect/build environment, and the
`args` flags read from `main.ts`. -/
structure SwitchEnv where
  parseURL : String → Option String
  fetchOutcome : FetchOutcome
  conn : ConnEnv
  argsDevtools : Option Bool
  argsIncludeAllPages : Option Bool

/-- Options record the `switch_browser` handler passes to `setContext`:
`devtools` is `args.experimentalDevtools ?? false`, the timeout is the
request's timeout defaulted to 10000. -/
def switchOptions (browserURL wsEndpoint : Option String) (env : SwitchEnv)
    (timeout : Int) : SetContextOptions :=
  { browserURL := browserURL, wsEndpoint := wsEndpoint,
    devtools := some (env.argsDevtools.getD false),
    experimentalIncludeAllPages := env.argsIncludeAllPages,
    timeout := some timeout }

/-- Shared tail of the `switch_browser` handler: the `setContext` call and
the final success line.  `evs` are the events accumulated so far; the
registry at this point is already empty from the teardown. -/
def switchConnect (browserURL wsEndpoint : Option String) (env : SwitchEnv)
    (timeout : Int) (evs : List SwitchEv) (reg : Option McpContext) :
    JsOutcome Unit × List SwitchEv × Option McpContext :=
  let opts := switchOptions browserURL wsEndpoint env timeout
  let evs := evs ++ [SwitchEv.connectAttempt opts]
  match setContext opts env.conn reg with
  | (JsOutcome.ok _, _, reg₁) =>
    (JsOutcome.ok (), evs ++ [SwitchEv.respLine ("Successfully connected to browser")], reg₁)
  | (JsOutcome.thrown m, _, reg₁) => (JsOutcome.thrown m, evs, reg₁)
  | (JsOutcome.pending, _, reg₁) => (JsOutcome.pending, evs, reg₁)

/-- Embedding of the `switch_browser` tool handler.  It first awaits
`disconnectBrowser()`, then classifies the locator's scheme via
`new URL`, resolves an http(s) locator through `convertHttpToBrowserUrl`,
and finally calls `setContext`.

Modelled from the spec: `disconnectBrowser` lives in `browser.ts`, which
is not among the given sources; per the spec the Teardown step clears the
registry ("cleared explicitly on disconnect"; a failed switch leaves the
registry empty "since teardown already happened") and its own failures are
suppressed, so it is modelled as the non-failing step that empties the
registry and emits the `disconnect` event. -/
def switchBrowser (url : String) (timeoutParam : Option Int) (env : SwitchEnv)
    (_reg : Option McpContext) :
    JsOutcome Unit × List SwitchEv × Option McpContext :=
  let timeout : Int := timeoutParam.getD 10000
  let evs : List SwitchEv := [SwitchEv.disconnect]
  let reg₀ : Option McpContext := none
  match env.parseURL url with
  | none => (JsOutcome.thrown ("Invalid URL"), evs, reg₀)
  | some proto =>
    if proto = "ws:" ∨ proto = "wss:" then
      let evs := evs ++ [SwitchEv.respLine ("Connecting to browser via WebSocket: " ++ url)]
      switchConnect none (some url) env timeout evs reg₀
    else if proto = "http:" ∨ proto = "https:" then
      let evs := evs ++
        [SwitchEv.respLine ("Fetching WebSocket endpoint from browser at " ++ url ++ "..."),
         SwitchEv.fetch (url ++ "/json/version")]
      match convertHttpToBrowserUrl url env.fetchOutcome with
      | Except.error m => (JsOutcome.thrown m, evs, reg₀)
      | Except.ok ws =>
        let evs := evs ++ [SwitchEv.respLine ("Resolved WebSocket endpoint: " ++ optStr ws)]
        switchConnect (some url) ws env timeout evs reg₀
    else
      (JsOutcome.thrown (unsupportedMessage proto), evs, reg₀)

/-- URLs requested over the network (metadata fetches) in an event list. -/
def fetchCalls : List SwitchEv → List String
  | [] => []
  | SwitchEv.fetch u :: r => u :: fetchCalls r
  | _ :: r => fetchCalls r

/-- The option records handed to `setContext` (driver connect attempts) in
an event list. -/
def connectCalls : List SwitchEv → List SetContextOptions
  | [] => []
  | SwitchEv.connectAttempt o :: r => o :: connectCalls r
  | _ :: r => connectCalls r

/-- The error message thrown by the `inspect_element` handler when neither
a selector nor a full coordinate pair is supplied. -/
def inspectArgsMessage : String :=
  "Either \"selector\" or \"x\" and \"y\" coordinates must be provided."

/-- JavaScript falsiness of an optional string argument, as tested by
`!selector`: `undefined` and the empty string are falsy. -/
def jsFalsyStr : Option String → Bool
  | none => true
  | some s => s = ""

/-- The argument gate at the top of the `inspect_element` handler:
`if (!selector && (x === undefined || y === undefined)) throw ...`, and
otherwise control reaches `page.evaluate`. -/
def inspectElementCheck (selector : Option String) (x y : Option Int) :
    Except String Unit :=
  if jsFalsyStr selector ∧ (x = none ∨ y = none) then
    Except.error inspectArgsMessage
  else
    Except.ok ()

/-- A DOM element as seen by the `get_dom_tree` in-page serializer: tag
name, `id` and `className` properties, attribute list (as reported by
`hasAttributes`/`attributes`), the text content of each direct text-node
child, and the element children (`node.children`). -/
inductive DomElem where
  | mk (tagName elemId className : String) (attrs : List (String × String))
       (textNodes : List String) (children : List DomElem)

/-- Element children of a DOM element. -/
def DomElem.children : DomElem → List DomElem
  | DomElem.mk _ _ _ _ _ cs => cs

/-- A node of the serialized tree the `get_dom_tree` tool returns: the
`DomNode` interface of `layout.ts`, with absent JSON fields as `none`. -/
inductive DomNode where
  | mk (tagName : String) (elemId className : Option String)
       (attributes : Option (List (String × String))) (text : Option String)
       (children : Option (List DomNode)) (childCount : Option Nat)

/-- The `children` field of a serialized node. -/
def DomNode.children : DomNode → Option (List DomNode)
  | DomNode.mk _ _ _ _ _ c _ => c

/-- The `childCount` field of a serialized node. -/
def DomNode.childCount : DomNode → Option Nat
  | DomNode.mk _ _ _ _ _ _ n => n

/-- The `text` field computed by the serializer: direct text-node contents
are trimmed and joined with spaces (skipping falsy ones), the result is
trimmed, dropped if empty, and truncated to 50 characters with an
ellipsis. -/
def domText (textNodes : List String) : Option String :=
  let t := (textNodes.foldl
    (fun acc s => if s = "" then acc else acc ++ s.trim ++ " ") ("")).trim
  if t = "" then none
  else if t.length > 50 then some (t.take 50 ++ "...") else some t

/-- The `attributes` field: present when `includeAttributes` is set and the
node has attributes, holding all attributes except `style`, `class` and
`id`. -/
def domAttrs (includeAttributes : Bool) (attrs : List (String × String)) :
    Option (List (String × String)) :=
  if includeAttributes ∧ attrs ≠ [] then
    some (attrs.filter (fun a => a.1 ≠ "style" ∧ a.1 ≠ "class" ∧ a.1 ≠ "id"))
  else none

mutual

/-- Embedding of the recursive `serializeNode` function inside the
`get_dom_tree` handler's `page.evaluate` callback.  `maxDepth` is the
user-supplied number; children are recursed exactly when
`currentDepth < args.maxDepth`, otherwise an element with children only
reports their count. -/
def serializeNode (includeAttributes includeText : Bool) (maxDepth : Int) :
    DomElem → Nat → DomNode
  | DomElem.mk tag i cls attrs txts cs, currentDepth =>
    DomNode.mk
      (tag.toLower)
      (if i ≠ "" then some i else none)
      (if cls ≠ "" ∧ cls.trim ≠ "" then some (cls.trim) else none)
      (domAttrs includeAttributes attrs)
      (if includeText then domText txts else none)
      (if cs.length > 0 ∧ (currentDepth : Int) < maxDepth then
        some (serializeList includeAttributes includeText maxDepth cs (currentDepth + 1))
      else none)
      (if cs.length > 0 ∧ ¬((currentDepth : Int) < maxDepth) then
        some cs.length
      else none)

/-- The `children.map(child => serializeNode(child, currentDepth + 1))`
step, as a structural list recursion. -/
def serializeList (includeAttributes includeText : Bool) (maxDepth : Int) :
    List DomElem → Nat → List DomNode
  | [], _ => []
  | e :: es, d =>
    serializeNode includeAttributes includeText maxDepth e d ::
      serializeList includeAttributes includeText maxDepth es d

end

mutual

/-- Depths of every node appearing in a serialized tree, the root being at
depth `d`. -/
def nodeDepths : DomNode → Nat → List Nat
  | DomNode.mk _ _ _ _ _ none _, d => [d]
  | DomNode.mk _ _ _ _ _ (some cs) _, d => d :: nodeDepthsList cs (d + 1)

/-- Depths of every node appearing in a forest of serialized trees. -/
def nodeDepthsList : List DomNode → Nat → List Nat
  | [], _ => []
  | n :: ns, d => nodeDepths n d ++ nodeDepthsList ns d

end

/-! ## Helper lemmas -/

lemma setContext_shape (opts : SetContextOptions) (env : ConnEnv) (reg : Option McpContext) :
    (setContext opts env reg).2.2 = reg ∨
      ∃ c, (setContext opts env reg).1 = JsOutcome.ok c ∧
        (setContext opts env reg).2.2 = some c := by
  rcases hr : racedAwait opts env with ⟨v, armed, cleared⟩
  rcases v with _ | e
  · simp [setContext, hr]
  · rcases e with m | ob
    · simp [setContext, hr]
    · rcases ob with _ | b
      · simp [setContext, hr]
      · rcases hb : env.build b (opts.devtools.getD false)
            (opts.experimentalIncludeAllPages.getD false) with m | c
        · simp [setContext, hr, hb]
        · right
          exact ⟨c, by simp [setContext, hr, hb]⟩

lemma setContext_thrown_registry (opts : SetContextOptions) (env : ConnEnv)
    (reg : Option McpContext) (m : String)
    (h : (setContext opts env reg).1 = JsOutcome.thrown m) :
    (setContext opts env reg).2.2 = reg := by
  rcases setContext_shape opts env reg with h' | ⟨c, hc, _⟩
  · exact h'
  · rw [hc] at h
    exact absurd h (by simp)

lemma setContext_trace_race (opts : SetContextOptions) (env : ConnEnv)
    (reg : Option McpContext) :
    (setContext opts env reg).2.1.timerArmed = (racedAwait opts env).2.1 ∧
      (setContext opts env reg).2.1.timerCleared = (racedAwait opts env).2.2 := by
  rcases hr : racedAwait opts env with ⟨v, armed, cleared⟩
  rcases v with _ | e
  · simp [setContext, hr]
  · rcases e with m | ob
    · simp [setContext, hr]
    · rcases ob with _ | b
      · simp [setContext, hr]
      · rcases hb : env.build b (opts.devtools.getD false)
            (opts.experimentalIncludeAllPages.getD false) with m | c <;>
          simp [setContext, hr, hb]

lemma setContext_connectCalled (opts : SetContextOptions) (env : ConnEnv)
    (reg : Option McpContext) :
    (setContext opts env reg).2.1.connectCalled = true := by
  rcases hr : racedAwait opts env with ⟨v, armed, cleared⟩
  rcases v with _ | e
  · simp [setContext, hr]
  · rcases e with m | ob
    · simp [setContext, hr]
    · rcases ob with _ | b
      · simp [setContext, hr]
      · rcases hb : env.build b (opts.devtools.getD false)
            (opts.experimentalIncludeAllPages.getD false) with m | c <;>
          simp [setContext, hr, hb]

lemma switchConnect_registry_eq (bu ws : Option String) (env : SwitchEnv) (t : Int)
    (evs : List SwitchEv) (reg : Option McpContext) :
    (switchConnect bu ws env t evs reg).2.2 =
      (setContext (switchOptions bu ws env t) env.conn reg).2.2 := by
  unfold switchConnect
  rcases hsc : setContext (switchOptions bu ws env t) env.conn reg with ⟨o, tr, reg₁⟩
  rcases o with c | m | _ <;> simp [hsc]

lemma switchConnect_thrown_iff (bu ws : Option String) (env : SwitchEnv) (t : Int)
    (evs : List SwitchEv) (reg : Option McpContext) (m : String) :
    (switchConnect bu ws env t evs reg).1 = JsOutcome.thrown m ↔
      (setContext (switchOptions bu ws env t) env.conn reg).1 = JsOutcome.thrown m := by
  unfold switchConnect
  rcases hsc : setContext (switchOptions bu ws env t) env.conn reg with ⟨o, tr, reg₁⟩
  rcases o with c | m' | _ <;> simp [hsc]

/-! ## Claim theorems -/

/-- C1: every failed `setContext` attempt leaves the registry observed via
`getContext` in a well-defined state: unchanged from its pre-attempt value
when `setContext` is invoked directly, and empty when the attempt was made
through the `switch_browser` handler, whose teardown step has already run
before the attempt. -/
theorem failed_attempt_registry_state :
    (∀ (opts : SetContextOptions) (env : ConnEnv) (reg : Option McpContext) (m : String),
      (setContext opts env reg).1 = JsOutcome.thrown m →
        getContext (setContext opts env reg).2.2 = getContext reg) ∧
    (∀ (url : String) (t : Option Int) (env : SwitchEnv) (reg : Option McpContext) (m : String),
      (switchBrowser url t env reg).1 = JsOutcome.thrown m →
        getContext (switchBrowser url t env reg).2.2 = none) := by
  constructor
  · intro opts env reg m h
    exact setContext_thrown_registry opts env reg m h
  · intro url t env reg m h
    rcases hp : env.parseURL url with _ | proto
    · simp only [switchBrowser, hp, getContext]
    · simp only [switchBrowser, hp] at h ⊢
      by_cases h1 : proto = "ws:" ∨ proto = "wss:"
      · rw [if_pos h1] at h ⊢
        rw [getContext, switchConnect_registry_eq]
        exact setContext_thrown_registry _ _ _ m
          ((switchConnect_thrown_iff _ _ _ _ _ _ m).1 h)
      · rw [if_neg h1] at h ⊢
        by_cases h2 : proto = "http:" ∨ proto = "https:"
        · rw [if_pos h2] at h ⊢
          rcases hc : convertHttpToBrowserUrl url env.fetchOutcome with m' | ws
          · rfl
          · rw [hc] at h
            exact (switchConnect_registry_eq (some url) ws env (t.getD 10000) _ none).trans
              (setContext_thrown_registry _ _ _ m
                ((switchConnect_thrown_iff (some url) ws env (t.getD 10000) _ none m).1 h))
        · rw [if_neg h2]
          rfl

/-- Witness for C1 at a concrete input: a `switch_browser` call on an
unreachable ws endpoint (connect rejects and wins the race) throws, and
the registry is empty afterwards, even though a context was installed
before the call. -/
theorem failed_attempt_registry_state_witness :
    (switchBrowser ("ws://127.0.0.1:1/x") none
      { parseURL := fun _ => some ("ws:"),
        fetchOutcome := FetchOutcome.ok none,
        conn := { connectSettle := some 2,
                  connectResult := ConnectResult.rejected ("ECONNREFUSED"),
                  build := fun _ _ _ => Except.ok { ctxId := 1 } },
        argsDevtools := none, argsIncludeAllPages := none }
      (some { ctxId := 0 })).1 = JsOutcome.thrown ("ECONNREFUSED") ∧
    getContext (switchBrowser ("ws://127.0.0.1:1/x") none
      { parseURL := fun _ => some ("ws:"),
        fetchOutcome := FetchOutcome.ok none,
        conn := { connectSettle := some 2,
                  connectResult := ConnectResult.rejected ("ECONNREFUSED"),
                  build := fun _ _ _ => Except.ok { ctxId := 1 } },
        argsDevtools := none, argsIncludeAllPages := none }
      (some { ctxId := 0 })).2.2 = none := by
  refine ⟨by decide, ?_⟩
  exact failed_attempt_registry_state.2 ("ws://127.0.0.1:1/x") none _ _ ("ECONNREFUSED")
    (by decide)

/-- C2 counterexample: a non-null handle whose `connected` indicator is
`false` does NOT make `setContext` fail — the call succeeds and the
disconnected handle is passed on to `McpContext.from`.  The source only
logs `browser?.connected`; the sole post-resolution validation is the
`if (!browser)` null check. -/
theorem setContext_accepts_disconnected_handle :
    (setContext {}
      { connectSettle := some 0,
        connectResult := ConnectResult.resolved (some { connected := false }),
        build := fun _ _ _ => Except.ok { ctxId := 7 } } none).1
        = JsOutcome.ok { ctxId := 7 } ∧
    (setContext {}
      { connectSettle := some 0,
        connectResult := ConnectResult.resolved (some { connected := false }),
        build := fun _ _ _ => Except.ok { ctxId := 7 } } none).2.1.buildCalledWith
        = some ({ connected := false }, false, false) := by
  constructor
  · rfl
  · rfl

/-- C2 (amended): after the connect operation resolves, the only
validation `setContext` performs is the null check — a `null`/`undefined`
handle throws the `browser object is undefined` error and nothing reaches
context construction, while every non-null handle (connected or not) is
passed on to `McpContext.from` unconditionally. -/
theorem setContext_null_check_only (opts : SetContextOptions) (env : ConnEnv)
    (reg : Option McpContext) :
    (∀ b : Browser, (racedAwait opts env).1 = some (Except.ok (some b)) →
      (setContext opts env reg).2.1.buildCalledWith =
        some (b, opts.devtools.getD false, opts.experimentalIncludeAllPages.getD false)) ∧
    ((racedAwait opts env).1 = some (Except.ok none) →
      (setContext opts env reg).1 = JsOutcome.thrown browserUndefinedMessage ∧
      (setContext opts env reg).2.1.buildCalledWith = none) := by
  rcases hr : racedAwait opts env with ⟨v, armed, cleared⟩
  constructor
  · intro b hb
    simp only [Prod.fst] at hb
    subst hb
    rcases hbuild : env.build b (opts.devtools.getD false)
        (opts.experimentalIncludeAllPages.getD false) with m | c <;>
      simp [setContext, hr, hbuild]
  · intro hb
    simp only [Prod.fst] at hb
    subst hb
    simp [setContext, hr]

/-- Witness for C2 (amended) at a concrete input: a connected handle
delivered without a timeout is handed to `McpContext.from` with the
resolved flag defaults. -/
theorem setContext_null_check_only_witness :
    (setContext { devtools := some true }
      { connectSettle := some 1,
        connectResult := ConnectResult.resolved (some { connected := true }),
        build := fun _ _ _ => Except.ok { ctxId := 3 } } none).2.1.buildCalledWith
        = some ({ connected := true }, true, false) :=
  (setContext_null_check_only { devtools := some true }
    { connectSettle := some 1,
      connectResult := ConnectResult.resolved (some { connected := true }),
      build := fun _ _ _ => Except.ok { ctxId := 3 } } none).1
    { connected := true } rfl

/-- C3: when `timeout` is set (truthy) and the connect promise has not
settled before the timer fires, `setContext` throws the timeout error,
whose message carries the configured duration in milliseconds and the
guidance text about checking that the browser is running and accessible
at the provided URL. -/
theorem setContext_timeout_error (opts : SetContextOptions) (env : ConnEnv)
    (reg : Option McpContext) (t : Int) (ht : opts.timeout = some t) (ht0 : t ≠ 0)
    (hrace : timerWinsRace t env.connectSettle = true) :
    (setContext opts env reg).1 = JsOutcome.thrown (timeoutMessage t) ∧
    (∃ pre post, timeoutMessage t = pre ++ (toString t ++ ("ms")) ++ post) ∧
    (∃ pre, timeoutMessage t =
      pre ++ ("check that the browser is running and accessible at the provided URL.")) := by
  refine ⟨?_, ?_, ?_⟩
  · have hb : (t != 0) = true := by simpa using ht0
    simp [setContext, racedAwait, ht, hb, hrace]
  · refine ⟨"Failed to connect to browser within ",
      ". Please check that the browser is running and accessible at the provided URL.", ?_⟩
    have hsplit :
        ("ms. Please check that the browser is running and accessible at the provided URL.")
          = ("ms") ++
            (". Please check that the browser is running and accessible at the provided URL.") :=
      rfl
    simp only [timeoutMessage, String.append_assoc]
    rw [hsplit]
  · refine ⟨"Failed to connect to browser within " ++ toString t ++ ("ms. Please "), ?_⟩
    have hsplit :
        ("ms. Please check that the browser is running and accessible at the provided URL.")
          = ("ms. Please ") ++
            ("check that the browser is running and accessible at the provided URL.") :=
      rfl
    simp only [timeoutMessage, String.append_assoc]
    rw [hsplit]

/-- Witness for C3 at a concrete input: a 50ms deadline against a connect
promise that never settles. -/
theorem setContext_timeout_error_witness :
    (setContext { timeout := some 50 }
      { connectSettle := none,
        connectResult := ConnectResult.rejected ("late"),
        build := fun _ _ _ => Except.ok { ctxId := 0 } } none).1
      = JsOutcome.thrown (timeoutMessage 50) :=
  (setContext_timeout_error { timeout := some 50 }
    { connectSettle := none,
      connectResult := ConnectResult.rejected ("late"),
      build := fun _ _ _ => Except.ok { ctxId := 0 } } none 50 rfl (by decide) rfl).1

/-- C4: whenever the timeout race is run (truthy `timeout`) and the
connect operation wins by settling strictly before the timer fires, the
armed timer is cleared by the `finally` block before `setContext` returns
or propagates, so the timer cannot fire after the race is decided. -/
theorem setContext_timer_cleared (opts : SetContextOptions) (env : ConnEnv)
    (reg : Option McpContext) (t : Int) (ht : opts.timeout = some t) (ht0 : t ≠ 0)
    (hrace : timerWinsRace t env.connectSettle = false) :
    (setContext opts env reg).2.1.timerArmed = true ∧
    (setContext opts env reg).2.1.timerCleared = true := by
  have hb : (t != 0) = true := by simpa using ht0
  have h := setContext_trace_race opts env reg
  rw [h.1, h.2]
  constructor <;> simp [racedAwait, ht, hb, hrace]

/-- Witness for C4 at a concrete input: the connect promise resolves at
time 3 against a 100ms deadline; the timer was armed and cleared. -/
theorem setContext_timer_cleared_witness :
    (setContext { timeout := some 100 }
      { connectSettle := some 3,
        connectResult := ConnectResult.resolved (some { connected := true }),
        build := fun _ _ _ => Except.ok { ctxId := 2 } } none).2.1.timerArmed = true ∧
    (setContext { timeout := some 100 }
      { connectSettle := some 3,
        connectResult := ConnectResult.resolved (some { connected := true }),
        build := fun _ _ _ => Except.ok { ctxId := 2 } } none).2.1.timerCleared = true :=
  setContext_timer_cleared { timeout := some 100 }
    { connectSettle := some 3,
      connectResult := ConnectResult.resolved (some { connected := true }),
      build := fun _ _ _ => Except.ok { ctxId := 2 } } none 100 rfl (by decide) (by decide)

/-- C5 counterexample: with neither `browserURL` nor `wsEndpoint` supplied
and a negative timeout, `setContext` performs no validation at all — the
connection attempt is started anyway (refuting "fails with a generic
InvalidArgument error before any connection attempt proceeds"), and the
failure that does surface is the timeout rejection, not an argument
error. -/
theorem setContext_no_invalid_argument_error :
    (setContext { browserURL := none, wsEndpoint := none, timeout := some (-5) }
      { connectSettle := some 3,
        connectResult := ConnectResult.rejected ("connect ECONNREFUSED"),
        build := fun _ _ _ => Except.ok { ctxId := 0 } } none).2.1.connectCalled = true ∧
    (setContext { browserURL := none, wsEndpoint := none, timeout := some (-5) }
      { connectSettle := some 3,
        connectResult := ConnectResult.rejected ("connect ECONNREFUSED"),
        build := fun _ _ _ => Except.ok { ctxId := 0 } } none).1
      = JsOutcome.thrown (timeoutMessage (-5)) := by
  constructor
  · rfl
  · rfl

/-- C5 (amended): `setContext` validates nothing before connecting — the
connect operation is started unconditionally, whatever the address fields
and timeout are; a timeout of `0` is falsy, so it merely disables the
deadline race rather than being rejected. -/
theorem setContext_no_argument_validation (opts : SetContextOptions) (env : ConnEnv)
    (reg : Option McpContext) :
    (setContext opts env reg).2.1.connectCalled = true ∧
    (opts.timeout = some 0 → (setContext opts env reg).2.1.timerArmed = false) := by
  refine ⟨setContext_connectCalled opts env reg, fun h0 => ?_⟩
  rw [(setContext_trace_race opts env reg).1]
  simp [racedAwait, h0]

/-- Witness for C5 (amended) at a concrete input: an options record with
no addresses and a zero timeout still starts the connect attempt and arms
no timer. -/
theorem setContext_no_argument_validation_witness :
    (setContext { timeout := some 0 }
      { connectSettle := some 1,
        connectResult := ConnectResult.rejected ("no target"),
        build := fun _ _ _ => Except.ok { ctxId := 0 } } none).2.1.connectCalled = true ∧
    (setContext { timeout := some 0 }
      { connectSettle := some 1,
        connectResult := ConnectResult.rejected ("no target"),
        build := fun _ _ _ => Except.ok { ctxId := 0 } } none).2.1.timerArmed = false :=
  ⟨(setContext_no_argument_validation { timeout := some 0 }
      { connectSettle := some 1,
        connectResult := ConnectResult.rejected ("no target"),
        build := fun _ _ _ => Except.ok { ctxId := 0 } } none).1,
   (setContext_no_argument_validation { timeout := some 0 }
      { connectSettle := some 1,
        connectResult := ConnectResult.rejected ("no target"),
        build := fun _ _ _ => Except.ok { ctxId := 0 } } none).2 rfl⟩

lemma fetchCalls_append (a b : List SwitchEv) :
    fetchCalls (a ++ b) = fetchCalls a ++ fetchCalls b := by
  induction a with
  | nil => rfl
  | cons e r ih => cases e <;> simp [fetchCalls, ih]

lemma connectCalls_append (a b : List SwitchEv) :
    connectCalls (a ++ b) = connectCalls a ++ connectCalls b := by
  induction a with
  | nil => rfl
  | cons e r ih => cases e <;> simp [connectCalls, ih]

lemma switchConnect_events (bu ws : Option String) (env : SwitchEnv) (t : Int)
    (evs : List SwitchEv) (reg : Option McpContext) :
    fetchCalls (switchConnect bu ws env t evs reg).2.1 = fetchCalls evs ∧
    connectCalls (switchConnect bu ws env t evs reg).2.1 =
      connectCalls evs ++ [switchOptions bu ws env t] := by
  unfold switchConnect
  rcases hsc : setContext (switchOptions bu ws env t) env.conn reg with ⟨o, tr, reg₁⟩
  rcases o with c | m | _ <;>
    simp [hsc, fetchCalls_append, connectCalls_append, fetchCalls, connectCalls]

/-- C6: a locator whose parsed scheme is outside http/https/ws/wss makes
the `switch_browser` handler throw the `Unsupported protocol` error that
names the offending scheme; the event trace is exactly the unconditional
teardown disconnect — no metadata fetch, no driver connect, no response
line. -/
theorem switchBrowser_unsupported_protocol (url : String) (t : Option Int)
    (env : SwitchEnv) (reg : Option McpContext) (proto : String)
    (hp : env.parseURL url = some proto)
    (hout : proto ∉ (["http:", "https:", "ws:", "wss:"] : List String)) :
    (switchBrowser url t env reg).1 = JsOutcome.thrown (unsupportedMessage proto) ∧
    (switchBrowser url t env reg).2.1 = [SwitchEv.disconnect] := by
  have h1 : ¬(proto = "ws:" ∨ proto = "wss:") := by
    rintro (rfl | rfl) <;> exact hout (by decide)
  have h2 : ¬(proto = "http:" ∨ proto = "https:") := by
    rintro (rfl | rfl) <;> exact hout (by decide)
  constructor <;> simp [switchBrowser, hp, if_neg h1, if_neg h2]

/-- Witness for C6 at a concrete input: `switch_browser("ftp://host")`. -/
theorem switchBrowser_unsupported_protocol_witness :
    (switchBrowser ("ftp://host") none
      { parseURL := fun _ => some ("ftp:"),
        fetchOutcome := FetchOutcome.ok none,
        conn := { connectSettle := some 0,
                  connectResult := ConnectResult.resolved none,
                  build := fun _ _ _ => Except.ok { ctxId := 0 } },
        argsDevtools := none, argsIncludeAllPages := none } none).1
      = JsOutcome.thrown (unsupportedMessage ("ftp:")) ∧
    (switchBrowser ("ftp://host") none
      { parseURL := fun _ => some ("ftp:"),
        fetchOutcome := FetchOutcome.ok none,
        conn := { connectSettle := some 0,
                  connectResult := ConnectResult.resolved none,
                  build := fun _ _ _ => Except.ok { ctxId := 0 } },
        argsDevtools := none, argsIncludeAllPages := none } none).2.1
      = [SwitchEv.disconnect] :=
  switchBrowser_unsupported_protocol ("ftp://host") none _ none ("ftp:") rfl (by decide)

/-- C7: for a ws/wss locator, resolution issues no network fetch and the
connection attempt receives the locator string itself, unchanged, as the
`wsEndpoint` (with no `browserURL`). -/
theorem switchBrowser_ws_passthrough (url : String) (t : Option Int) (env : SwitchEnv)
    (reg : Option McpContext) (proto : String) (hp : env.parseURL url = some proto)
    (hws : proto = "ws:" ∨ proto = "wss:") :
    fetchCalls (switchBrowser url t env reg).2.1 = [] ∧
    connectCalls (switchBrowser url t env reg).2.1 =
      [switchOptions none (some url) env (t.getD 10000)] ∧
    (switchOptions none (some url) env (t.getD 10000)).wsEndpoint = some url := by
  simp only [switchBrowser, hp, if_pos hws]
  refine ⟨?_, ?_, rfl⟩
  · rw [(switchConnect_events _ _ _ _ _ _).1]
    rfl
  · rw [(switchConnect_events _ _ _ _ _ _).2]
    rfl

/-- Witness for C7 at a concrete input: a wss locator reaches the connect
attempt verbatim with no fetch. -/
theorem switchBrowser_ws_passthrough_witness :
    fetchCalls (switchBrowser ("wss://127.0.0.1:9222/devtools/browser/abc") none
      { parseURL := fun _ => some ("wss:"),
        fetchOutcome := FetchOutcome.ok none,
        conn := { connectSettle := some 0,
                  connectResult := ConnectResult.resolved (some { connected := true }),
                  build := fun _ _ _ => Except.ok { ctxId := 5 } },
        argsDevtools := none, argsIncludeAllPages := none } none).2.1 = [] ∧
    connectCalls (switchBrowser ("wss://127.0.0.1:9222/devtools/browser/abc") none
      { parseURL := fun _ => some ("wss:"),
        fetchOutcome := FetchOutcome.ok none,
        conn := { connectSettle := some 0,
                  connectResult := ConnectResult.resolved (some { connected := true }),
                  build := fun _ _ _ => Except.ok { ctxId := 5 } },
        argsDevtools := none, argsIncludeAllPages := none } none).2.1 =
      [switchOptions none (some ("wss://127.0.0.1:9222/devtools/browser/abc"))
        { parseURL := fun _ => some ("wss:"),
          fetchOutcome := FetchOutcome.ok none,
          conn := { connectSettle := some 0,
                    connectResult := ConnectResult.resolved (some { connected := true }),
                    build := fun _ _ _ => Except.ok { ctxId := 5 } },
          argsDevtools := none, argsIncludeAllPages := none } 10000] ∧
    (switchOptions none (some ("wss://127.0.0.1:9222/devtools/browser/abc"))
      { parseURL := fun _ => some ("wss:"),
        fetchOutcome := FetchOutcome.ok none,
        conn := { connectSettle := some 0,
                  connectResult := ConnectResult.resolved (some { connected := true }),
                  build := fun _ _ _ => Except.ok { ctxId := 5 } },
        argsDevtools := none, argsIncludeAllPages := none } 10000).wsEndpoint
      = some ("wss://127.0.0.1:9222/devtools/browser/abc") :=
  switchBrowser_ws_passthrough ("wss://127.0.0.1:9222/devtools/browser/abc") none _ none
    ("wss:") rfl (by decide)

/-- C8: for an http/https locator, resolution issues exactly one request,
to `<url>/json/version`; on a successful fetch the JSON's
`webSocketDebuggerUrl` field becomes the `wsEndpoint` of the connection
attempt and the original URL is retained as its `browserURL`; on any
fetch or parse failure the handler throws the `ResolutionFailed`-style
message, which contains the attempted URL and the underlying cause, and
no connection attempt is made. -/
theorem switchBrowser_http_resolution (url : String) (t : Option Int) (env : SwitchEnv)
    (reg : Option McpContext) (proto : String) (hp : env.parseURL url = some proto)
    (hh : proto = "http:" ∨ proto = "https:") :
    fetchCalls (switchBrowser url t env reg).2.1 = [url ++ ("/json/version")] ∧
    (∀ ws, env.fetchOutcome = FetchOutcome.ok ws →
      connectCalls (switchBrowser url t env reg).2.1 =
        [switchOptions (some url) ws env (t.getD 10000)] ∧
      (switchOptions (some url) ws env (t.getD 10000)).browserURL = some url ∧
      (switchOptions (some url) ws env (t.getD 10000)).wsEndpoint = ws) ∧
    (∀ cause, fetchFailureCause env.fetchOutcome = some cause →
      (switchBrowser url t env reg).1 = JsOutcome.thrown (resolutionMessage url cause) ∧
      connectCalls (switchBrowser url t env reg).2.1 = [] ∧
      ∃ p₁ p₂ p₃, resolutionMessage url cause = p₁ ++ url ++ p₂ ++ cause ++ p₃) := by
  have h1 : ¬(proto = "ws:" ∨ proto = "wss:") := by
    rcases hh with rfl | rfl <;> rintro (h | h) <;> exact absurd h (by decide)
  simp only [switchBrowser, hp, if_neg h1, if_pos hh]
  rcases hf : env.fetchOutcome with ws | m | st | m
  · refine ⟨?_, ?_, ?_⟩
    · simp only [convertHttpToBrowserUrl]
      rw [(switchConnect_events _ _ _ _ _ _).1]
      rfl
    · intro ws' hws'
      simp only [FetchOutcome.ok.injEq] at hws'
      subst hws'
      simp only [convertHttpToBrowserUrl]
      refine ⟨?_, rfl, rfl⟩
      rw [(switchConnect_events _ _ _ _ _ _).2]
      rfl
    · intro cause hc
      exact absurd hc (by simp [fetchFailureCause])
  · refine ⟨rfl, ?_, ?_⟩
    · intro ws' hws'
      exact absurd hws' (by simp)
    · intro cause hc
      simp only [fetchFailureCause, Option.some.injEq] at hc
      subst hc
      refine ⟨rfl, rfl,
        ⟨"Could not connect to browser at ", ": ",
         ". Make sure the browser is running and the URL is correct.", rfl⟩⟩
  · refine ⟨rfl, ?_, ?_⟩
    · intro ws' hws'
      exact absurd hws' (by simp)
    · intro cause hc
      simp only [fetchFailureCause, Option.some.injEq] at hc
      subst hc
      refine ⟨rfl, rfl,
        ⟨"Could not connect to browser at ", ": ",
         ". Make sure the browser is running and the URL is correct.", rfl⟩⟩
  · refine ⟨rfl, ?_, ?_⟩
    · intro ws' hws'
      exact absurd hws' (by simp)
    · intro cause hc
      simp only [fetchFailureCause, Option.some.injEq] at hc
      subst hc
      refine ⟨rfl, rfl,
        ⟨"Could not connect to browser at ", ": ",
         ". Make sure the browser is running and the URL is correct.", rfl⟩⟩

/-- Witness for C8 at a concrete input: an http locator resolving to a
`webSocketDebuggerUrl`. -/
theorem switchBrowser_http_resolution_witness :
    fetchCalls (switchBrowser ("http://127.0.0.1:9222") none
      { parseURL := fun _ => some ("http:"),
        fetchOutcome := FetchOutcome.ok (some ("ws://127.0.0.1:9222/devtools/browser/xyz")),
        conn := { connectSettle := some 0,
                  connectResult := ConnectResult.resolved (some { connected := true }),
                  build := fun _ _ _ => Except.ok { ctxId := 9 } },
        argsDevtools := none, argsIncludeAllPages := none } none).2.1
      = [("http://127.0.0.1:9222") ++ ("/json/version")] ∧
    connectCalls (switchBrowser ("http://127.0.0.1:9222") none
      { parseURL := fun _ => some ("http:"),
        fetchOutcome := FetchOutcome.ok (some ("ws://127.0.0.1:9222/devtools/browser/xyz")),
        conn := { connectSettle := some 0,
                  connectResult := ConnectResult.resolved (some { connected := true }),
                  build := fun _ _ _ => Except.ok { ctxId := 9 } },
        argsDevtools := none, argsIncludeAllPages := none } none).2.1
      = [switchOptions (some ("http://127.0.0.1:9222"))
          (some ("ws://127.0.0.1:9222/devtools/browser/xyz"))
          { parseURL := fun _ => some ("http:"),
            fetchOutcome := FetchOutcome.ok (some ("ws://127.0.0.1:9222/devtools/browser/xyz")),
            conn := { connectSettle := some 0,
                      connectResult := ConnectResult.resolved (some { connected := true }),
                      build := fun _ _ _ => Except.ok { ctxId := 9 } },
            argsDevtools := none, argsIncludeAllPages := none } 10000] :=
  ⟨(switchBrowser_http_resolution ("http://127.0.0.1:9222") none
      { parseURL := fun _ => some ("http:"),
        fetchOutcome := FetchOutcome.ok (some ("ws://127.0.0.1:9222/devtools/browser/xyz")),
        conn := { connectSettle := some 0,
                  connectResult := ConnectResult.resolved (some { connected := true }),
                  build := fun _ _ _ => Except.ok { ctxId := 9 } },
        argsDevtools := none, argsIncludeAllPages := none } none ("http:") rfl
      (Or.inl rfl)).1,
   ((switchBrowser_http_resolution ("http://127.0.0.1:9222") none
      { parseURL := fun _ => some ("http:"),
        fetchOutcome := FetchOutcome.ok (some ("ws://127.0.0.1:9222/devtools/browser/xyz")),
        conn := { connectSettle := some 0,
                  connectResult := ConnectResult.resolved (some { connected := true }),
                  build := fun _ _ _ => Except.ok { ctxId := 9 } },
        argsDevtools := none, argsIncludeAllPages := none } none ("http:") rfl
      (Or.inl rfl)).2.1 (some ("ws://127.0.0.1:9222/devtools/browser/xyz")) rfl).1⟩

/-- C9 counterexample: a request that does supply a selector — the empty
string — and no coordinates is rejected by the handler (the JS test
`!selector` treats the empty string as missing), contradicting the claim
that any supplied selector proceeds to evaluation. -/
theorem inspectElement_empty_selector_throws :
    inspectElementCheck (some ("")) none none = Except.error inspectArgsMessage := by
  rfl

/-- C9 (amended): the `inspect_element` handler throws the
`Either selector or coordinates` error exactly when the selector is
absent or the empty string (JS-falsy) and the coordinates are not both
supplied; with a nonempty selector, or with both coordinates, it proceeds
to the page evaluation. -/
theorem inspectElement_argument_gate (selector : Option String) (x y : Option Int) :
    inspectElementCheck selector x y = Except.error inspectArgsMessage ↔
      (jsFalsyStr selector = true ∧ (x = none ∨ y = none)) := by
  unfold inspectElementCheck
  split
  · next h => simp [h]
  · next h => simp [h]

lemma serializeNode_children_eq (ia it : Bool) (md : Int) (e : DomElem) (d : Nat) :
    (serializeNode ia it md e d).children =
      (if e.children.length > 0 ∧ (d : Int) < md then
        some (serializeList ia it md e.children (d + 1))
      else none) := by
  rcases e with ⟨tag, i, cls, attrs, txts, cs⟩
  simp [serializeNode, DomNode.children, DomElem.children]

lemma serializeNode_childCount_eq (ia it : Bool) (md : Int) (e : DomElem) (d : Nat) :
    (serializeNode ia it md e d).childCount =
      (if e.children.length > 0 ∧ ¬((d : Int) < md) then
        some e.children.length
      else none) := by
  rcases e with ⟨tag, i, cls, attrs, txts, cs⟩
  simp [serializeNode, DomNode.childCount, DomElem.children]

mutual

lemma nodeDepths_le (ia it : Bool) (md : Int) (e : DomElem) (d : Nat)
    (hd : (d : Int) ≤ md) :
    ∀ k ∈ nodeDepths (serializeNode ia it md e d) d, (k : Int) ≤ md := by
  rcases e with ⟨tag, i, cls, attrs, txts, cs⟩
  by_cases h : cs.length > 0 ∧ (d : Int) < md
  · have hc : (serializeNode ia it md (DomElem.mk tag i cls attrs txts cs) d).children =
        some (serializeList ia it md cs (d + 1)) := by
      rw [serializeNode_children_eq]
      simp [DomElem.children, h]
    intro k hk
    rcases hn : serializeNode ia it md (DomElem.mk tag i cls attrs txts cs) d with
      ⟨tag', i', cls', attrs', txt', ch', cnt'⟩
    rw [hn] at hc hk
    simp only [DomNode.children] at hc
    subst hc
    simp only [nodeDepths, List.mem_cons] at hk
    rcases hk with rfl | hk
    · exact hd
    · have hd1 : ((d + 1 : Nat) : Int) ≤ md := by
        push_cast
        omega
      exact nodeDepthsList_le ia it md cs (d + 1) hd1 k hk
  · have hc : (serializeNode ia it md (DomElem.mk tag i cls attrs txts cs) d).children =
        none := by
      rw [serializeNode_children_eq, if_neg]
      simpa [DomElem.children] using h
    intro k hk
    rcases hn : serializeNode ia it md (DomElem.mk tag i cls attrs txts cs) d with
      ⟨tag', i', cls', attrs', txt', ch', cnt'⟩
    rw [hn] at hc hk
    simp only [DomNode.children] at hc
    subst hc
    simp only [nodeDepths, List.mem_singleton] at hk
    subst hk
    exact hd

lemma nodeDepthsList_le (ia it : Bool) (md : Int) (es : List DomElem) (d : Nat)
    (hd : (d : Int) ≤ md) :
    ∀ k ∈ nodeDepthsList (serializeList ia it md es d) d, (k : Int) ≤ md := by
  match es with
  | [] =>
    intro k hk
    simp [serializeList, nodeDepthsList] at hk
  | e :: es' =>
    intro k hk
    simp only [serializeList, nodeDepthsList, List.mem_append] at hk
    rcases hk with hk | hk
    · exact nodeDepths_le ia it md e d hd k hk
    · exact nodeDepthsList_le ia it md es' d hd k hk

end

/-- C10: in the tree returned by `get_dom_tree`, a serialized node's
children are recursively serialized exactly when its depth is strictly
below `maxDepth`; a node at depth `maxDepth` that has element children
reports only their count, with no children array; consequently every
depth occurring in the output is at most `maxDepth`. -/
theorem getDomTree_maxDepth_bound (ia it : Bool) (md : Int) (e : DomElem) (d : Nat)
    (hd : (d : Int) ≤ md) :
    (∀ cs, (serializeNode ia it md e d).children = some cs →
      (d : Int) < md ∧ cs = serializeList ia it md e.children (d + 1)) ∧
    ((d : Int) = md → e.children ≠ [] →
      (serializeNode ia it md e d).children = none ∧
      (serializeNode ia it md e d).childCount = some e.children.length) ∧
    (∀ k ∈ nodeDepths (serializeNode ia it md e d) d, (k : Int) ≤ md) := by
  refine ⟨?_, ?_, nodeDepths_le ia it md e d hd⟩
  · intro cs hcs
    rw [serializeNode_children_eq] at hcs
    by_cases h : e.children.length > 0 ∧ (d : Int) < md
    · rw [if_pos h] at hcs
      exact ⟨h.2, (Option.some_inj.mp hcs).symm⟩
    · rw [if_neg h] at hcs
      exact absurd hcs (by simp)
  · intro heq hne
    have hnotlt : ¬((d : Int) < md) := by omega
    constructor
    · rw [serializeNode_children_eq, if_neg]
      rintro ⟨-, hlt⟩
      exact hnotlt hlt
    · rw [serializeNode_childCount_eq, if_pos]
      exact ⟨List.length_pos.mpr hne, hnotlt⟩

/-- Witness for C10 at a concrete input: a three-level tree serialized
with `maxDepth = 1` has every output depth at most 1. -/
theorem getDomTree_maxDepth_bound_witness :
    (((0 : Nat) : Int) ≤ 1) ∧
    (∀ k ∈ nodeDepths (serializeNode false false 1
      (DomElem.mk ("DIV") ("") ("") [] []
        [DomElem.mk ("SPAN") ("") ("") [] []
          [DomElem.mk ("B") ("") ("") [] [] []]]) 0) 0, (k : Int) ≤ 1) :=
  ⟨by decide,
   (getDomTree_maxDepth_bound false false 1
      (DomElem.mk ("DIV") ("") ("") [] []
        [DomElem.mk ("SPAN") ("") ("") [] []
          [DomElem.mk ("B") ("") ("") [] [] []]]) 0 (by decide)).2.2⟩
